import Mathlib

set_option maxRecDepth 8000
set_option exponentiation.threshold 600

/-!
Verification of the EC encoding utilities (`ec_util.cc`): point
encoding/decoding for the NIST curves in the UNCOMPRESSED, COMPRESSED and
CRUNCHY_UNCOMPRESSED formats, curve-group resolution, encoding sizes, and
the X25519 <-> EcKey adapters.  The OpenSSL/BoringSSL provider primitives
(point-octet conversions, affine-coordinate construction, on-curve checks)
are modelled over affine coordinates with the standard NIST domain
parameters.
-/

namespace TinkEc

/-- Curve identifiers, as in `subtle::EllipticCurveType`. -/
inductive EllipticCurveType where
  | UNKNOWN_CURVE
  | NIST_P256
  | NIST_P384
  | NIST_P521
  | CURVE25519
deriving DecidableEq, Repr

/-- Point formats, as in `subtle::EcPointFormat`. -/
inductive EcPointFormat where
  | UNKNOWN_FORMAT
  | UNCOMPRESSED
  | COMPRESSED
  | DO_NOT_USE_CRUNCHY_UNCOMPRESSED
deriving DecidableEq, Repr

/-- Error taxonomy.  The C++ code returns `util::Status` values; each failure
site is mapped to the taxonomy entry that names it. -/
inductive TinkError where
  | unsupportedCurve
  | unsupportedFormat
  | lengthMismatch
  | invalidEncoding
  | invalidPoint
  | wrongCurve
  | unexpectedCoordinate
  | providerFailure
deriving DecidableEq, Repr

/-- Model of the provider's `EC_GROUP`: the prime field modulus, the curve
coefficients of `y^2 = x^3 + a x + b`, and the field bit length
(`EC_GROUP_get_degree`). -/
structure ECGroup where
  p : Nat
  a : Nat
  b : Nat
  degree : Nat
deriving DecidableEq, Repr

/-- Model of the provider's `EC_POINT`: affine coordinates. -/
structure ECPoint where
  x : Nat
  y : Nat
deriving DecidableEq, Repr

/-- NIST P-256 (secp256r1 / prime256v1) field prime. -/
def p256P : Nat :=
  0xffffffff00000001000000000000000000000000ffffffffffffffffffffffff

/-- NIST P-384 (secp384r1) field prime. -/
def p384P : Nat :=
  0xfffffffffffffffffffffffffffffffffffffffffffffffffffffffffffffffeffffffff0000000000000000ffffffff

/-- NIST P-521 (secp521r1) field prime, `2^521 - 1`. -/
def p521P : Nat := 2 ^ 521 - 1

/-- NIST P-256 domain parameters (`NID_X9_62_prime256v1`). -/
def groupP256 : ECGroup :=
  { p := p256P
    a := p256P - 3
    b := 0x5ac635d8aa3a93e7b3ebbd55769886bc651d06b0cc53b0f63bce3c3e27d2604b
    degree := 256 }

/-- NIST P-384 domain parameters (`NID_secp384r1`). -/
def groupP384 : ECGroup :=
  { p := p384P
    a := p384P - 3
    b := 0xb3312fa7e23ee7e4988e056be3f82d19181d9c6efe8141120314088f5013875ac656398d8a2ed19d2a85c8edd3ec2aef
    degree := 384 }

/-- NIST P-521 domain parameters (`NID_secp521r1`). -/
def groupP521 : ECGroup :=
  { p := p521P
    a := p521P - 3
    b := 0x0051953eb9618e1c9a1f929a21a0b68540eea2da725b99b315f3b8b489918ef109e156193951ec7e937b1652c0bd3bb1bf073573df883d2c34f1ef451fd46b503f00
    degree := 521 }

/-- `EcGroupFromCurveType`: resolves the three NIST curves, fails with
`UnsupportedCurve` for anything else (including CURVE25519). -/
def EcGroupFromCurveType : EllipticCurveType → Except TinkError ECGroup
  | .NIST_P256 => .ok groupP256
  | .NIST_P384 => .ok groupP384
  | .NIST_P521 => .ok groupP521
  | _ => .error .unsupportedCurve

/-- Provider on-curve check (`EC_POINT_is_on_curve`): the coordinates are
field elements and satisfy the curve equation. -/
def onCurve (g : ECGroup) (P : ECPoint) : Bool :=
  decide (P.x < g.p) && decide (P.y < g.p) &&
    decide (P.y ^ 2 % g.p = (P.x ^ 3 + g.a * P.x + g.b) % g.p)

/-- Big-endian value of a byte string (`StringToBignum` / `BN_bin2bn`). -/
def fromBytesBE (bs : List Nat) : Nat :=
  bs.foldl (fun acc b => acc * 256 + b) 0

/-- Fixed-width big-endian encoding of a value, left-zero-padded.  The low
byte is last. -/
def toBytesBE : Nat → Nat → List Nat
  | 0, _ => []
  | n + 1, v => toBytesBE n (v / 256) ++ [v % 256]

/-- Modelled from the spec: `BignumToBinaryPadded` (from `bn_util`, not part
of the analysed translation unit) serializes a big integer "into a fixed
n-byte big-endian buffer, left-zero-padded", failing when the value does not
fit the buffer. -/
def BignumToBinaryPadded (len : Nat) (v : Nat) : Except TinkError (List Nat) :=
  if v < 256 ^ len then .ok (toBytesBE len v) else .error .providerFailure

/-- Fuel-driven modular exponentiation, square-and-multiply.  Mirrors the
provider's bignum exponentiation; written to be reducible by the kernel. -/
def powModFuel : Nat → Nat → Nat → Nat → Nat
  | 0, _, _, m => 1 % m
  | fuel + 1, a, e, m =>
    if e = 0 then 1 % m
    else
      let h := powModFuel fuel (a * a % m) (e / 2) m
      if e % 2 = 1 then h * a % m else h

/-- `a ^ e % m`, computed by square-and-multiply. -/
def powMod (a e m : Nat) : Nat := powModFuel e a e m

/-- Provider octet-to-point conversion (`EC_POINT_oct2point`).  Dispatches on
the tag byte; for the compressed form recovers `y` as a modular square root
of `x^3 + a x + b` (the provider computes `r^((p+1)/4)` for `p % 4 = 3` and
verifies the result squares back), picking the root whose parity matches the
tag. -/
def sslOct2Point (g : ECGroup) (bytes : List Nat) : Except TinkError ECPoint :=
  let n := (g.degree + 7) / 8
  match bytes with
  | [] => .error .invalidPoint
  | t :: rest =>
    if t = 4 then
      if rest.length = 2 * n then
        let x := fromBytesBE (rest.take n)
        let y := fromBytesBE (rest.drop n)
        if onCurve g ⟨x, y⟩ then .ok ⟨x, y⟩ else .error .invalidPoint
      else .error .invalidPoint
    else if t = 2 ∨ t = 3 then
      if rest.length = n then
        let x := fromBytesBE rest
        if x < g.p then
          let rhs := (x ^ 3 + g.a * x + g.b) % g.p
          let c := powMod rhs ((g.p + 1) / 4) g.p
          if c * c % g.p = rhs then
            .ok ⟨x, if c % 2 = t % 2 then c else g.p - c⟩
          else .error .invalidPoint
        else .error .invalidPoint
      else .error .invalidPoint
    else .error .invalidPoint

/-- Provider point-to-octet conversion, uncompressed form
(`EC_POINT_point2oct` with `POINT_CONVERSION_UNCOMPRESSED`):
`0x04 ‖ x ‖ y`, coordinates in fixed-width big-endian. -/
def sslPoint2OctUncompressed (g : ECGroup) (P : ECPoint) : List Nat :=
  4 :: (toBytesBE ((g.degree + 7) / 8) P.x ++ toBytesBE ((g.degree + 7) / 8) P.y)

/-- Provider point-to-octet conversion, compressed form
(`EC_POINT_point2oct` with `POINT_CONVERSION_COMPRESSED`):
`(0x02 + (y mod 2)) ‖ x`. -/
def sslPoint2OctCompressed (g : ECGroup) (P : ECPoint) : List Nat :=
  (2 + P.y % 2) :: toBytesBE ((g.degree + 7) / 8) P.x

/-- `EncodingSizeInBytes`. -/
def EncodingSizeInBytes (curve : EllipticCurveType) (format : EcPointFormat) :
    Except TinkError Nat := do
  let group ← EcGroupFromCurveType curve
  let kCurveSizeInBytes := (group.degree + 7) / 8
  match format with
  | .UNCOMPRESSED => .ok (2 * kCurveSizeInBytes + 1)
  | .DO_NOT_USE_CRUNCHY_UNCOMPRESSED => .ok (2 * kCurveSizeInBytes)
  | .COMPRESSED => .ok (kCurveSizeInBytes + 1)
  | _ => .error .unsupportedFormat

/-- `SslGetEcPointFromEncoded`: format gate, curve-group resolution, length
check, tag-byte check, provider conversion, and the module's own on-curve
re-check, in the source's order. -/
def SslGetEcPointFromEncoded (curve : EllipticCurveType) (format : EcPointFormat)
    (encoded : List Nat) : Except TinkError ECPoint :=
  if format ≠ .UNCOMPRESSED ∧ format ≠ .COMPRESSED then .error .unsupportedFormat
  else do
    let group ← EcGroupFromCurveType curve
    let encodingSize ← EncodingSizeInBytes curve format
    if encoded.length ≠ encodingSize then .error .lengthMismatch
    else if format = .UNCOMPRESSED ∧ encoded.head? ≠ some 4 then
      .error .invalidEncoding
    else if format = .COMPRESSED ∧ encoded.head? ≠ some 3 ∧ encoded.head? ≠ some 2 then
      .error .invalidEncoding
    else do
      let point ← sslOct2Point group encoded
      if onCurve group point then .ok point else .error .invalidPoint

/-- `SslGetEcPointFromCoordinates`: big-endian coordinate parsing and point
construction; `EC_POINT_set_affine_coordinates_GFp` validates that the
coordinates describe a point on the curve. -/
def SslGetEcPointFromCoordinates (g : ECGroup) (pubx puby : List Nat) :
    Except TinkError ECPoint :=
  let x := fromBytesBE pubx
  let y := fromBytesBE puby
  if onCurve g ⟨x, y⟩ then .ok ⟨x, y⟩ else .error .invalidPoint

/-- `EcPointEncode`. -/
def EcPointEncode (curve : EllipticCurveType) (format : EcPointFormat)
    (point : ECPoint) : Except TinkError (List Nat) := do
  let group ← EcGroupFromCurveType curve
  if onCurve group point = false then .error .invalidPoint
  else
    let kCurveSizeInBytes := (group.degree + 7) / 8
    match format with
    | .UNCOMPRESSED => .ok (sslPoint2OctUncompressed group point)
    | .COMPRESSED => .ok (sslPoint2OctCompressed group point)
    | .DO_NOT_USE_CRUNCHY_UNCOMPRESSED => do
      let xbytes ← BignumToBinaryPadded kCurveSizeInBytes point.x
      let ybytes ← BignumToBinaryPadded kCurveSizeInBytes point.y
      .ok (xbytes ++ ybytes)
    | _ => .error .unsupportedFormat

/-- `EcPointDecode`. -/
def EcPointDecode (curve : EllipticCurveType) (format : EcPointFormat)
    (encoded : List Nat) : Except TinkError ECPoint :=
  match format with
  | .UNCOMPRESSED | .COMPRESSED => SslGetEcPointFromEncoded curve format encoded
  | .DO_NOT_USE_CRUNCHY_UNCOMPRESSED => do
    let group ← EcGroupFromCurveType curve
    let kCurveSizeInBytes := (group.degree + 7) / 8
    if encoded.length ≠ 2 * kCurveSizeInBytes then .error .lengthMismatch
    else
      SslGetEcPointFromCoordinates group (encoded.take kCurveSizeInBytes)
        (encoded.drop kCurveSizeInBytes)
  | _ => .error .unsupportedFormat

/-- `EcKey` (`subtle::SubtleUtilBoringSSL::EcKey` shape): curve identifier,
affine public coordinates as big-endian bytes, private scalar bytes. -/
structure EcKey where
  curve : EllipticCurveType
  pub_x : List Nat
  pub_y : List Nat
  priv : List Nat
deriving DecidableEq, Repr

/-- `X25519Key`: fixed 32-byte buffers in C++ (`uint8_t[32]`). -/
structure X25519Key where
  private_key : List Nat
  public_value : List Nat
deriving DecidableEq, Repr

/-- `X25519KeyPubKeySize()` = 32. -/
def X25519KeyPubKeySize : Nat := 32

/-- `X25519KeyPrivKeySize()` = 32. -/
def X25519KeyPrivKeySize : Nat := 32

/-- `EcKeyFromX25519Key`: total, `pub_y` left empty. -/
def EcKeyFromX25519Key (x : X25519Key) : EcKey :=
  { curve := .CURVE25519
    pub_x := x.public_value
    pub_y := []
    priv := x.private_key }

/-- `X25519KeyFromEcKey`: curve check, then `pub_y` check, then
`std::copy_n(..., 32, ...)` from each source field.  The C++ `copy_n` reads
32 bytes unconditionally; when a source holds fewer than 32 bytes that read
runs past its end (undefined behavior, no error path).  The truncation
models exactly the bytes that were legally read. -/
def X25519KeyFromEcKey (k : EcKey) : Except TinkError X25519Key :=
  if k.curve ≠ .CURVE25519 then .error .wrongCurve
  else if k.pub_y ≠ [] then .error .unexpectedCoordinate
  else .ok { private_key := k.priv.take X25519KeyPrivKeySize
             public_value := k.pub_x.take X25519KeyPubKeySize }

/-! ### Helper lemmas -/

@[simp] theorem ok_bind {α β : Type} (a : α) (f : α → Except TinkError β) :
    (Except.ok a : Except TinkError α) >>= f = f a := rfl

@[simp] theorem error_bind {α β : Type} (e : TinkError)
    (f : α → Except TinkError β) :
    (Except.error e : Except TinkError α) >>= f = Except.error e := rfl

theorem length_toBytesBE (n v : Nat) : (toBytesBE n v).length = n := by
  induction n generalizing v with
  | zero => rfl
  | succ n ih => simp [toBytesBE, ih]

theorem fromBytesBE_snoc (l : List Nat) (b : Nat) :
    fromBytesBE (l ++ [b]) = fromBytesBE l * 256 + b := by
  simp [fromBytesBE, List.foldl_append]

theorem fromBytesBE_toBytesBE (n v : Nat) (h : v < 256 ^ n) :
    fromBytesBE (toBytesBE n v) = v := by
  induction n generalizing v with
  | zero =>
    interval_cases v
    rfl
  | succ n ih =>
    rw [toBytesBE, fromBytesBE_snoc, ih (v / 256) ?_]
    · omega
    rw [Nat.div_lt_iff_lt_mul (by norm_num)]
    calc v < 256 ^ (n + 1) := h
    _ = 256 ^ n * 256 := by rw [Nat.pow_succ]

theorem take_append_len (l₁ l₂ : List Nat) (n : Nat) (h : l₁.length = n) :
    (l₁ ++ l₂).take n = l₁ := by
  subst h
  simp

theorem drop_append_len (l₁ l₂ : List Nat) (n : Nat) (h : l₁.length = n) :
    (l₁ ++ l₂).drop n = l₂ := by
  subst h
  simp

theorem powModFuel_eq (fuel : Nat) :
    ∀ e, e < 2 ^ fuel → ∀ a m, powModFuel fuel a e m = a ^ e % m := by
  induction fuel with
  | zero =>
    intro e he a m
    interval_cases e
    simp [powModFuel]
  | succ fuel ih =>
    intro e he a m
    rw [powModFuel]
    by_cases he0 : e = 0
    · simp [he0]
    · have hdiv : e / 2 < 2 ^ fuel := by
        rw [Nat.div_lt_iff_lt_mul (by norm_num)]
        calc e < 2 ^ (fuel + 1) := he
        _ = 2 ^ fuel * 2 := by rw [Nat.pow_succ]
      have hrec : powModFuel fuel (a * a % m) (e / 2) m = (a * a) ^ (e / 2) % m := by
        rw [ih (e / 2) hdiv, Nat.pow_mod, Nat.mod_mod_of_dvd _ dvd_rfl, ← Nat.pow_mod]
      simp only [he0, if_false]
      have haa : a * a = a ^ 2 := (sq a).symm
      by_cases hodd : e % 2 = 1
      · have he2 : 2 * (e / 2) + 1 = e := by omega
        simp only [hodd, if_true, hrec]
        rw [Nat.mod_mul_mod, haa, ← pow_mul, ← pow_succ, he2]
      · have he2 : 2 * (e / 2) = e := by omega
        simp only [hodd, if_false, hrec]
        rw [haa, ← pow_mul, he2]

theorem powMod_eq (a e m : Nat) : powMod a e m = a ^ e % m :=
  powModFuel_eq e e (Nat.lt_two_pow e) a m

theorem powMod_lt (a e m : Nat) (hm : 0 < m) : powMod a e m < m := by
  rw [powMod_eq]
  exact Nat.mod_lt _ hm

theorem natCast_zmod_inj (p x y : Nat) [NeZero p] (hx : x < p) (hy : y < p)
    (h : (x : ZMod p) = (y : ZMod p)) : x = y := by
  have := congrArg ZMod.val h
  rwa [ZMod.val_cast_of_lt hx, ZMod.val_cast_of_lt hy] at this

theorem cast_powMod (p : Nat) [NeZero p] (a e : Nat) :
    ((powMod a e p : Nat) : ZMod p) = (a : ZMod p) ^ e := by
  rw [powMod_eq, ZMod.natCast_mod, Nat.cast_pow]

/-- Pratt certificate checker: if `a` has order `p - 1` modulo `p`, checked
against a complete prime factor list `L` of `p - 1`, then `p` is prime. -/
theorem pratt_with_list (p a : Nat) (L : List Nat) (hp1 : 1 < p)
    (hL : p - 1 = L.prod)
    (hPrimes : ∀ q ∈ L, q.Prime)
    (ha : powMod a (p - 1) p = 1)
    (hnr : ∀ q ∈ L, powMod a ((p - 1) / q) p ≠ 1) : p.Prime := by
  haveI : NeZero p := ⟨by omega⟩
  apply lucas_primality p (a : ZMod p)
  · rw [← cast_powMod, ha, Nat.cast_one]
  · intro q hq hdvd
    rw [hL] at hdvd
    obtain ⟨x, hxL, hqx⟩ := (hq.prime.dvd_prod_iff).mp hdvd
    have hqeq : q = x := (Nat.prime_dvd_prime_iff_eq hq (hPrimes x hxL)).mp hqx
    subst hqeq
    intro hcon
    apply hnr q hxL
    apply natCast_zmod_inj p _ 1 (powMod_lt _ _ _ (by omega)) hp1
    rw [cast_powMod, hcon, Nat.cast_one]

/-! Primality of the three NIST field primes.  P-521's prime is the Mersenne
prime `2^521 - 1`; P-256's (and later P-384's) primality is certified by a
Pratt certificate chain through `pratt_with_list`. -/

theorem prime_204061199 : Nat.Prime 204061199 := by
  apply pratt_with_list 204061199 11 [2, 11, 23, 107, 3769]
  · norm_num
  · decide
  · intro q hq
    fin_cases hq <;> norm_num
  · decide
  · intro q hq
    fin_cases hq <;> decide

theorem prime_6700417 : Nat.Prime 6700417 := by
  apply pratt_with_list 6700417 5 [2, 2, 2, 2, 2, 2, 2, 3, 17449]
  · norm_num
  · decide
  · intro q hq
    fin_cases hq <;> norm_num
  · decide
  · intro q hq
    fin_cases hq <;> decide

theorem prime_6051631 : Nat.Prime 6051631 := by
  apply pratt_with_list 6051631 6 [2, 3, 5, 13, 59, 263]
  · norm_num
  · decide
  · intro q hq
    fin_cases hq <;> norm_num
  · decide
  · intro q hq
    fin_cases hq <;> decide

theorem prime_34282281433 : Nat.Prime 34282281433 := by
  apply pratt_with_list 34282281433 17 [2, 2, 2, 3, 7, 204061199]
  · norm_num
  · decide
  · intro q hq
    fin_cases hq <;> first | exact prime_204061199 | norm_num
  · decide
  · intro q hq
    fin_cases hq <;> decide

theorem prime_66417393611 : Nat.Prime 66417393611 := by
  apply pratt_with_list 66417393611 6 [2, 5, 53, 173, 197, 3677]
  · norm_num
  · decide
  · intro q hq
    fin_cases hq <;> norm_num
  · decide
  · intro q hq
    fin_cases hq <;> decide

theorem prime_11290956913871 : Nat.Prime 11290956913871 := by
  apply pratt_with_list 11290956913871 13 [2, 5, 17, 66417393611]
  · norm_num
  · decide
  · intro q hq
    fin_cases hq <;> first | exact prime_66417393611 | norm_num
  · decide
  · intro q hq
    fin_cases hq <;> decide

theorem prime_46076956964474543 : Nat.Prime 46076956964474543 := by
  apply pratt_with_list 46076956964474543 5 [2, 23, 18169, 78283, 704251]
  · norm_num
  · decide
  · intro q hq
    fin_cases hq <;> norm_num
  · decide
  · intro q hq
    fin_cases hq <;> decide

theorem prime_774023187263532362759620327192479577272145303 :
    Nat.Prime 774023187263532362759620327192479577272145303 := by
  apply pratt_with_list 774023187263532362759620327192479577272145303 3
    [2, 3, 3, 2411, 34282281433, 11290956913871, 46076956964474543]
  · norm_num
  · decide
  · intro q hq
    fin_cases hq <;>
      first
        | exact prime_34282281433
        | exact prime_11290956913871
        | exact prime_46076956964474543
        | norm_num
  · decide
  · intro q hq
    fin_cases hq <;> decide

theorem prime_835945042244614951780389953367877943453916927241 :
    Nat.Prime 835945042244614951780389953367877943453916927241 := by
  apply pratt_with_list 835945042244614951780389953367877943453916927241 11
    [2, 2, 2, 3, 3, 3, 5, 774023187263532362759620327192479577272145303]
  · norm_num
  · decide
  · intro q hq
    fin_cases hq <;>
      first
        | exact prime_774023187263532362759620327192479577272145303
        | norm_num
  · decide
  · intro q hq
    fin_cases hq <;> decide

theorem p256P_prime : Nat.Prime p256P := by
  rw [show p256P =
    115792089210356248762697446949407573530086143415290314195533631308867097853951
    from rfl]
  apply pratt_with_list
    115792089210356248762697446949407573530086143415290314195533631308867097853951 6
    [2, 3, 5, 5, 17, 257, 641, 1531, 65537, 490463, 6700417,
      835945042244614951780389953367877943453916927241]
  · norm_num
  · decide
  · intro q hq
    fin_cases hq <;>
      first
        | exact prime_835945042244614951780389953367877943453916927241
        | exact prime_6700417
        | norm_num
  · decide
  · intro q hq
    fin_cases hq <;> decide

theorem prime_513928823 : Nat.Prime 513928823 := by
  apply pratt_with_list 513928823 5 [2, 11, 59, 599, 661]
  · norm_num
  · decide
  · intro q hq
    fin_cases hq <;> norm_num
  · decide
  · intro q hq
    fin_cases hq <;> decide

theorem prime_53448597593 : Nat.Prime 53448597593 := by
  apply pratt_with_list 53448597593 3 [2, 2, 2, 13, 513928823]
  · norm_num
  · decide
  · intro q hq
    fin_cases hq <;> first | exact prime_513928823 | norm_num
  · decide
  · intro q hq
    fin_cases hq <;> decide

theorem prime_1357291859799823621 : Nat.Prime 1357291859799823621 := by
  apply pratt_with_list 1357291859799823621 2 [2, 2, 3, 5, 67, 6317, 53448597593]
  · norm_num
  · decide
  · intro q hq
    fin_cases hq <;> first | exact prime_53448597593 | norm_num
  · decide
  · intro q hq
    fin_cases hq <;> decide

theorem prime_105957871 : Nat.Prime 105957871 := by
  apply pratt_with_list 105957871 3 [2, 3, 5, 19, 211, 881]
  · norm_num
  · decide
  · intro q hq
    fin_cases hq <;> norm_num
  · decide
  · intro q hq
    fin_cases hq <;> decide

theorem prime_246608641 : Nat.Prime 246608641 := by
  apply pratt_with_list 246608641 19 [2, 2, 2, 2, 2, 2, 2, 2, 3, 3, 5, 21407]
  · norm_num
  · decide
  · intro q hq
    fin_cases hq <;> norm_num
  · decide
  · intro q hq
    fin_cases hq <;> decide

theorem prime_529709925838459440593 : Nat.Prime 529709925838459440593 := by
  apply pratt_with_list 529709925838459440593 3
    [2, 2, 2, 2, 7, 181, 105957871, 246608641]
  · norm_num
  · decide
  · intro q hq
    fin_cases hq <;>
      first | exact prime_105957871 | exact prime_246608641 | norm_num
  · decide
  · intro q hq
    fin_cases hq <;> decide

theorem prime_532247449 : Nat.Prime 532247449 := by
  apply pratt_with_list 532247449 7 [2, 2, 2, 3, 61, 363557]
  · norm_num
  · decide
  · intro q hq
    fin_cases hq <;> norm_num
  · decide
  · intro q hq
    fin_cases hq <;> decide

theorem prime_44925942675193 : Nat.Prime 44925942675193 := by
  apply pratt_with_list 44925942675193 5 [2, 2, 2, 3, 3517, 532247449]
  · norm_num
  · decide
  · intro q hq
    fin_cases hq <;> first | exact prime_532247449 | norm_num
  · decide
  · intro q hq
    fin_cases hq <;> decide

theorem prime_35581458644053887931343 : Nat.Prime 35581458644053887931343 := by
  apply pratt_with_list 35581458644053887931343 5
    [2, 17, 41, 568151, 44925942675193]
  · norm_num
  · decide
  · intro q hq
    fin_cases hq <;> first | exact prime_44925942675193 | norm_num
  · decide
  · intro q hq
    fin_cases hq <;> decide

theorem prime_23964610537191310276190549303 :
    Nat.Prime 23964610537191310276190549303 := by
  apply pratt_with_list 23964610537191310276190549303 5
    [2, 336757, 35581458644053887931343]
  · norm_num
  · decide
  · intro q hq
    fin_cases hq <;> first | exact prime_35581458644053887931343 | norm_num
  · decide
  · intro q hq
    fin_cases hq <;> decide

theorem prime_862725979338887169942859774909 :
    Nat.Prime 862725979338887169942859774909 := by
  apply pratt_with_list 862725979338887169942859774909 2
    [2, 2, 3, 3, 23964610537191310276190549303]
  · norm_num
  · decide
  · intro q hq
    fin_cases hq <;> first | exact prime_23964610537191310276190549303 | norm_num
  · decide
  · intro q hq
    fin_cases hq <;> decide

theorem prime_20705423504133292078628634597817 :
    Nat.Prime 20705423504133292078628634597817 := by
  apply pratt_with_list 20705423504133292078628634597817 5
    [2, 2, 2, 3, 862725979338887169942859774909]
  · norm_num
  · decide
  · intro q hq
    fin_cases hq <;> first | exact prime_862725979338887169942859774909 | norm_num
  · decide
  · intro q hq
    fin_cases hq <;> decide

theorem prime_413244619895455989650825325680172591660047 :
    Nat.Prime 413244619895455989650825325680172591660047 := by
  apply pratt_with_list 413244619895455989650825325680172591660047 5
    [2, 17, 97, 6051631, 20705423504133292078628634597817]
  · norm_num
  · decide
  · intro q hq
    fin_cases hq <;>
      first
        | exact prime_20705423504133292078628634597817
        | exact prime_6051631
        | norm_num
  · decide
  · intro q hq
    fin_cases hq <;> decide

theorem prime_12397338596863679689524759770405177749801411 :
    Nat.Prime 12397338596863679689524759770405177749801411 := by
  apply pratt_with_list 12397338596863679689524759770405177749801411 2
    [2, 3, 5, 413244619895455989650825325680172591660047]
  · norm_num
  · decide
  · intro q hq
    fin_cases hq <;>
      first | exact prime_413244619895455989650825325680172591660047 | norm_num
  · decide
  · intro q hq
    fin_cases hq <;> decide

theorem prime_q384 :
    Nat.Prime
      19173790298027098165721053155794528970226934547887232785722672956982046098136719667167519737147526097 := by
  apply pratt_with_list
    19173790298027098165721053155794528970226934547887232785722672956982046098136719667167519737147526097
    3
    [2, 2, 2, 2, 11, 11, 11, 8389, 38557, 312289, 1357291859799823621,
      529709925838459440593, 12397338596863679689524759770405177749801411]
  · norm_num
  · decide
  · intro q hq
    fin_cases hq <;>
      first
        | exact prime_1357291859799823621
        | exact prime_529709925838459440593
        | exact prime_12397338596863679689524759770405177749801411
        | norm_num
  · decide
  · intro q hq
    fin_cases hq <;> decide

theorem prime_2862218959 : Nat.Prime 2862218959 := by
  apply pratt_with_list 2862218959 3 [2, 3, 157, 1373, 2213]
  · norm_num
  · decide
  · intro q hq
    fin_cases hq <;> norm_num
  · decide
  · intro q hq
    fin_cases hq <;> decide

theorem prime_807145746439 : Nat.Prime 807145746439 := by
  apply pratt_with_list 807145746439 3 [2, 3, 47, 2862218959]
  · norm_num
  · decide
  · intro q hq
    fin_cases hq <;> first | exact prime_2862218959 | norm_num
  · decide
  · intro q hq
    fin_cases hq <;> decide

theorem p384P_prime : Nat.Prime p384P := by
  rw [show p384P =
    39402006196394479212279040100143613805079739270465446667948293404245721771496870329047266088258938001861606973112319
    by rfl]
  apply pratt_with_list
    39402006196394479212279040100143613805079739270465446667948293404245721771496870329047266088258938001861606973112319
    19
    [2, 19, 67, 807145746439,
      19173790298027098165721053155794528970226934547887232785722672956982046098136719667167519737147526097]
  · norm_num
  · decide
  · intro q hq
    fin_cases hq <;>
      first
        | exact prime_807145746439
        | exact prime_q384
        | norm_num
  · decide
  · intro q hq
    fin_cases hq <;> decide

theorem p521P_prime : Nat.Prime p521P := by
  have h : p521P = mersenne 521 := by norm_num [p521P, mersenne]
  rw [h]
  exact lucas_lehmer_sufficiency 521 (by norm_num) (by norm_num)

/-- Square roots modulo a prime `p ≡ 3 (mod 4)`: for a field element `y`,
`(y^2)^((p+1)/4)` is again a square root of `y^2`, and equals `y` or `p - y`. -/
theorem sqrtMod_spec (p : Nat) (hp : p.Prime) (h4 : p % 4 = 3) (y : Nat)
    (hy : y < p) :
    powMod (y ^ 2 % p) ((p + 1) / 4) p *
        powMod (y ^ 2 % p) ((p + 1) / 4) p % p = y ^ 2 % p ∧
    (powMod (y ^ 2 % p) ((p + 1) / 4) p = y ∨
      powMod (y ^ 2 % p) ((p + 1) / 4) p = p - y) := by
  haveI : Fact p.Prime := ⟨hp⟩
  haveI : NeZero p := ⟨hp.ne_zero⟩
  have hp1 : 1 < p := hp.one_lt
  set c := powMod (y ^ 2 % p) ((p + 1) / 4) p with hc
  have hclt : c < p := powMod_lt _ _ _ (by omega)
  have hcast : (c : ZMod p) = (y : ZMod p) ^ ((p + 1) / 4 * 2) := by
    rw [hc, powMod_eq, Nat.pow_mod, Nat.mod_mod_of_dvd _ dvd_rfl, ← Nat.pow_mod,
      ZMod.natCast_mod, Nat.cast_pow, Nat.cast_pow, ← pow_mul, mul_comm 2]
  by_cases hy0 : y = 0
  · subst hy0
    have hquarter : 1 ≤ (p + 1) / 4 := by omega
    have hc0 : c = 0 := by
      rw [hc, powMod_eq]
      have : (0 : Nat) ^ 2 % p = 0 := by simp
      rw [this, zero_pow (by omega), Nat.zero_mod]
    rw [hc0]
    refine ⟨by simp, Or.inl rfl⟩
  · have hY : (y : ZMod p) ≠ 0 := by
      intro h0
      apply hy0
      have := congrArg ZMod.val h0
      rwa [ZMod.val_cast_of_lt hy, ZMod.val_zero] at this
    have hexp : (p + 1) / 4 * 2 = (p - 1) / 2 + 1 := by omega
    have heps : (y : ZMod p) ^ ((p - 1) / 2) = 1 ∨
        (y : ZMod p) ^ ((p - 1) / 2) = -1 := by
      have hsq : ((y : ZMod p) ^ ((p - 1) / 2)) ^ 2 = 1 := by
        rw [← pow_mul]
        have h2 : (p - 1) / 2 * 2 = p - 1 := by omega
        rw [h2]
        exact ZMod.pow_card_sub_one_eq_one hY
      have hfac : ((y : ZMod p) ^ ((p - 1) / 2) - 1) *
          ((y : ZMod p) ^ ((p - 1) / 2) + 1) = 0 := by
        have expand : ∀ t : ZMod p, (t - 1) * (t + 1) = t ^ 2 - 1 := by
          intro t
          ring
        rw [expand, hsq, sub_self]
      rcases mul_eq_zero.mp hfac with h | h
      · exact Or.inl (by linear_combination h)
      · exact Or.inr (by linear_combination h)
    have hcY : (c : ZMod p) = (y : ZMod p) ^ ((p - 1) / 2) * (y : ZMod p) := by
      rw [hcast, hexp, pow_succ]
    have hsq : (c : ZMod p) * (c : ZMod p) = ((y ^ 2 % p : Nat) : ZMod p) := by
      rcases heps with h | h <;>
        rw [ZMod.natCast_mod, Nat.cast_pow, hcY, h] <;> ring
    constructor
    · apply natCast_zmod_inj p _ _ (Nat.mod_lt _ (by omega)) (Nat.mod_lt _ (by omega))
      rw [ZMod.natCast_mod, Nat.cast_mul, hsq]
    · rcases heps with h | h
      · left
        apply natCast_zmod_inj p _ _ hclt hy
        rw [hcY, h, one_mul]
      · right
        apply natCast_zmod_inj p _ _ hclt (by omega)
        rw [hcY, h, Nat.cast_sub hy.le, ZMod.natCast_self, zero_sub, neg_mul, one_mul]

theorem onCurve_elim (g : ECGroup) (P : ECPoint) (h : onCurve g P = true) :
    P.x < g.p ∧ P.y < g.p ∧
      P.y ^ 2 % g.p = (P.x ^ 3 + g.a * P.x + g.b) % g.p := by
  simp only [onCurve, Bool.and_eq_true, decide_eq_true_eq] at h
  exact ⟨h.1.1, h.1.2, h.2⟩

theorem sslOct2Point_uncompressed (g : ECGroup) (x y : Nat)
    (hx : x < 256 ^ ((g.degree + 7) / 8)) (hy : y < 256 ^ ((g.degree + 7) / 8))
    (hcurve : onCurve g ⟨x, y⟩ = true) :
    sslOct2Point g (sslPoint2OctUncompressed g ⟨x, y⟩) = .ok ⟨x, y⟩ := by
  have hlx := length_toBytesBE ((g.degree + 7) / 8) x
  have hly := length_toBytesBE ((g.degree + 7) / 8) y
  have hl : (toBytesBE ((g.degree + 7) / 8) x ++
      toBytesBE ((g.degree + 7) / 8) y).length = 2 * ((g.degree + 7) / 8) := by
    rw [List.length_append, hlx, hly]
    omega
  simp [sslPoint2OctUncompressed, sslOct2Point, hl,
    take_append_len _ _ _ hlx, drop_append_len _ _ _ hlx,
    fromBytesBE_toBytesBE _ _ hx, fromBytesBE_toBytesBE _ _ hy, hcurve]

theorem sslOct2Point_compressed (g : ECGroup) (x y : Nat)
    (hprime : g.p.Prime) (h4 : g.p % 4 = 3)
    (hx : x < 256 ^ ((g.degree + 7) / 8))
    (hcurve : onCurve g ⟨x, y⟩ = true) :
    sslOct2Point g (sslPoint2OctCompressed g ⟨x, y⟩) = .ok ⟨x, y⟩ := by
  obtain ⟨hxp, hyp, heq⟩ := onCurve_elim g _ hcurve
  have hlx := length_toBytesBE ((g.degree + 7) / 8) x
  have htag : ¬(2 + y % 2 = 4) := by omega
  have htag2 : 2 + y % 2 = 2 ∨ 2 + y % 2 = 3 := by omega
  have hylt : y < g.p := by simpa using hyp
  have hrhs : (x ^ 3 + g.a * x + g.b) % g.p = y ^ 2 % g.p := by
    simpa using heq.symm
  obtain ⟨hroot, hcases⟩ := sqrtMod_spec g.p hprime h4 y hylt
  have hclt : powMod (y ^ 2 % g.p) ((g.p + 1) / 4) g.p < g.p :=
    powMod_lt _ _ _ hprime.pos
  have hpodd : g.p % 2 = 1 := by omega
  simp only [sslPoint2OctCompressed, sslOct2Point, if_neg htag, if_pos htag2,
    if_pos hlx, fromBytesBE_toBytesBE _ _ hx, if_pos (by simpa using hxp),
    hrhs, if_pos hroot, length_toBytesBE]
  rcases hcases with hcy | hcy
  · rw [hcy]
    simp
  · by_cases hy0 : y = 0
    · subst hy0
      exact absurd hclt (by omega)
    · have hsub : g.p - (g.p - y) = y := by omega
      rw [hcy]
      simp [hsub]
      omega

theorem encodingSize_of_group (curve : EllipticCurveType) (g : ECGroup)
    (format : EcPointFormat) (hg : EcGroupFromCurveType curve = .ok g) :
    EncodingSizeInBytes curve format =
      (match format with
        | .UNCOMPRESSED => .ok (2 * ((g.degree + 7) / 8) + 1)
        | .DO_NOT_USE_CRUNCHY_UNCOMPRESSED => .ok (2 * ((g.degree + 7) / 8))
        | .COMPRESSED => .ok ((g.degree + 7) / 8 + 1)
        | _ => .error .unsupportedFormat) := by
  simp [EncodingSizeInBytes, hg]

/-- Round trip through the UNCOMPRESSED format. -/
theorem round_trip_uncompressed (curve : EllipticCurveType) (g : ECGroup)
    (hg : EcGroupFromCurveType curve = .ok g)
    (hfit : g.p ≤ 256 ^ ((g.degree + 7) / 8))
    (P : ECPoint) (hP : onCurve g P = true) :
    ∃ bytes, EcPointEncode curve .UNCOMPRESSED P = .ok bytes ∧
      EcPointDecode curve .UNCOMPRESSED bytes = .ok P := by
  obtain ⟨x, y⟩ := P
  obtain ⟨hxp, hyp, heq⟩ := onCurve_elim g _ hP
  have hx : x < 256 ^ ((g.degree + 7) / 8) := lt_of_lt_of_le hxp hfit
  have hy : y < 256 ^ ((g.degree + 7) / 8) := lt_of_lt_of_le hyp hfit
  refine ⟨sslPoint2OctUncompressed g ⟨x, y⟩, ?_, ?_⟩
  · simp [EcPointEncode, hg, hP]
  · have hlen : (sslPoint2OctUncompressed g ⟨x, y⟩).length =
        2 * ((g.degree + 7) / 8) + 1 := by
      simp only [sslPoint2OctUncompressed, List.length_cons, List.length_append,
        length_toBytesBE]
      omega
    have hssl := sslOct2Point_uncompressed g x y hx hy hP
    have hhead : (sslPoint2OctUncompressed g ⟨x, y⟩).head? = some 4 := rfl
    simp [EcPointDecode, SslGetEcPointFromEncoded,
      encodingSize_of_group curve g .UNCOMPRESSED hg, hg, hlen, hhead, hssl, hP]

/-- Round trip through the COMPRESSED format. -/
theorem round_trip_compressed (curve : EllipticCurveType) (g : ECGroup)
    (hg : EcGroupFromCurveType curve = .ok g)
    (hprime : g.p.Prime) (h4 : g.p % 4 = 3)
    (hfit : g.p ≤ 256 ^ ((g.degree + 7) / 8))
    (P : ECPoint) (hP : onCurve g P = true) :
    ∃ bytes, EcPointEncode curve .COMPRESSED P = .ok bytes ∧
      EcPointDecode curve .COMPRESSED bytes = .ok P := by
  obtain ⟨x, y⟩ := P
  obtain ⟨hxp, hyp, heq⟩ := onCurve_elim g _ hP
  have hx : x < 256 ^ ((g.degree + 7) / 8) := lt_of_lt_of_le hxp hfit
  refine ⟨sslPoint2OctCompressed g ⟨x, y⟩, ?_, ?_⟩
  · simp [EcPointEncode, hg, hP]
  · have hlen : (sslPoint2OctCompressed g ⟨x, y⟩).length =
        (g.degree + 7) / 8 + 1 := by
      simp [sslPoint2OctCompressed, length_toBytesBE]
    have hssl := sslOct2Point_compressed g x y hprime h4 hx hP
    have hhead : (sslPoint2OctCompressed g ⟨x, y⟩).head? = some (2 + y % 2) :=
      rfl
    rcases Nat.mod_two_eq_zero_or_one y with h2 | h2 <;>
      simp [EcPointDecode, SslGetEcPointFromEncoded,
        encodingSize_of_group curve g .COMPRESSED hg, hg, hlen, hhead, hssl,
        hP, h2]

/-- Round trip through the CRUNCHY_UNCOMPRESSED format. -/
theorem round_trip_crunchy (curve : EllipticCurveType) (g : ECGroup)
    (hg : EcGroupFromCurveType curve = .ok g)
    (hfit : g.p ≤ 256 ^ ((g.degree + 7) / 8))
    (P : ECPoint) (hP : onCurve g P = true) :
    ∃ bytes, EcPointEncode curve .DO_NOT_USE_CRUNCHY_UNCOMPRESSED P = .ok bytes ∧
      EcPointDecode curve .DO_NOT_USE_CRUNCHY_UNCOMPRESSED bytes = .ok P := by
  obtain ⟨x, y⟩ := P
  obtain ⟨hxp, hyp, heq⟩ := onCurve_elim g _ hP
  have hx : x < 256 ^ ((g.degree + 7) / 8) := lt_of_lt_of_le hxp hfit
  have hy : y < 256 ^ ((g.degree + 7) / 8) := lt_of_lt_of_le hyp hfit
  have hlx := length_toBytesBE ((g.degree + 7) / 8) x
  have hly := length_toBytesBE ((g.degree + 7) / 8) y
  refine ⟨toBytesBE ((g.degree + 7) / 8) x ++ toBytesBE ((g.degree + 7) / 8) y,
    ?_, ?_⟩
  · simp [EcPointEncode, hg, hP, BignumToBinaryPadded, hx, hy]
  · have hlen : (toBytesBE ((g.degree + 7) / 8) x ++
        toBytesBE ((g.degree + 7) / 8) y).length =
        2 * ((g.degree + 7) / 8) := by
      rw [List.length_append, hlx, hly]
      omega
    simp [EcPointDecode, hg, hlen, SslGetEcPointFromCoordinates,
      take_append_len _ _ _ hlx, drop_append_len _ _ _ hlx,
      fromBytesBE_toBytesBE _ _ hx, fromBytesBE_toBytesBE _ _ hy, hP]

/-! ### Theorems for the behavioral claims -/

/-- C1: for every supported curve, every format in
{UNCOMPRESSED, COMPRESSED, CRUNCHY_UNCOMPRESSED}, and every point on the
curve, encoding succeeds and decoding the encoded bytes returns the original
point. -/
theorem c1_encode_decode_round_trip (curve : EllipticCurveType)
    (format : EcPointFormat) (g : ECGroup) (P : ECPoint)
    (hg : EcGroupFromCurveType curve = .ok g)
    (hf : format = .UNCOMPRESSED ∨ format = .COMPRESSED ∨
      format = .DO_NOT_USE_CRUNCHY_UNCOMPRESSED)
    (hP : onCurve g P = true) :
    ∃ bytes, EcPointEncode curve format P = .ok bytes ∧
      EcPointDecode curve format bytes = .ok P := by
  have hfacts : g.p.Prime ∧ g.p % 4 = 3 ∧ g.p ≤ 256 ^ ((g.degree + 7) / 8) := by
    cases curve <;> simp [EcGroupFromCurveType] at hg <;> subst hg
    · exact ⟨p256P_prime, by decide, by decide⟩
    · exact ⟨p384P_prime, by decide, by decide⟩
    · exact ⟨p521P_prime, by decide, by decide⟩
  rcases hf with rfl | rfl | rfl
  · exact round_trip_uncompressed curve g hg hfacts.2.2 P hP
  · exact round_trip_compressed curve g hg hfacts.1 hfacts.2.1 hfacts.2.2 P hP
  · exact round_trip_crunchy curve g hg hfacts.2.2 P hP

/-- C1 witness: the standard P-256 base point round-trips through the
UNCOMPRESSED format. -/
theorem c1_encode_decode_round_trip_witness :
    ∃ bytes,
      EcPointEncode .NIST_P256 .UNCOMPRESSED
        ⟨0x6b17d1f2e12c4247f8bce6e563a440f277037d812deb33a0f4a13945d898c296,
         0x4fe342e2fe1a7f9b8ee7eb4a7c0f9e162bce33576b315ececbb6406837bf51f5⟩ =
        .ok bytes ∧
      EcPointDecode .NIST_P256 .UNCOMPRESSED bytes =
        .ok ⟨0x6b17d1f2e12c4247f8bce6e563a440f277037d812deb33a0f4a13945d898c296,
             0x4fe342e2fe1a7f9b8ee7eb4a7c0f9e162bce33576b315ececbb6406837bf51f5⟩ :=
  c1_encode_decode_round_trip .NIST_P256 .UNCOMPRESSED groupP256
    ⟨0x6b17d1f2e12c4247f8bce6e563a440f277037d812deb33a0f4a13945d898c296,
     0x4fe342e2fe1a7f9b8ee7eb4a7c0f9e162bce33576b315ececbb6406837bf51f5⟩
    rfl (Or.inl rfl) (by decide)

/-- C7: `GroupFor` (i.e. `EcGroupFromCurveType`) succeeds exactly for the
three NIST curves; every other curve value, including CURVE25519, fails with
`UnsupportedCurve`. -/
theorem c7_group_resolution :
    (∃ g, EcGroupFromCurveType .NIST_P256 = .ok g) ∧
    (∃ g, EcGroupFromCurveType .NIST_P384 = .ok g) ∧
    (∃ g, EcGroupFromCurveType .NIST_P521 = .ok g) ∧
    EcGroupFromCurveType .CURVE25519 = .error .unsupportedCurve ∧
    EcGroupFromCurveType .UNKNOWN_CURVE = .error .unsupportedCurve :=
  ⟨⟨groupP256, rfl⟩, ⟨groupP384, rfl⟩, ⟨groupP521, rfl⟩, rfl, rfl⟩

/-- C3: `EncodingSizeBytes` returns `2n+1` / `n+1` / `2n` with
`n = 32, 48, 66` for P-256, P-384, P-521, and fails with `UnsupportedFormat`
for the remaining format value. -/
theorem c3_encoding_sizes :
    EncodingSizeInBytes .NIST_P256 .UNCOMPRESSED = .ok 65 ∧
    EncodingSizeInBytes .NIST_P256 .COMPRESSED = .ok 33 ∧
    EncodingSizeInBytes .NIST_P256 .DO_NOT_USE_CRUNCHY_UNCOMPRESSED = .ok 64 ∧
    EncodingSizeInBytes .NIST_P256 .UNKNOWN_FORMAT = .error .unsupportedFormat ∧
    EncodingSizeInBytes .NIST_P384 .UNCOMPRESSED = .ok 97 ∧
    EncodingSizeInBytes .NIST_P384 .COMPRESSED = .ok 49 ∧
    EncodingSizeInBytes .NIST_P384 .DO_NOT_USE_CRUNCHY_UNCOMPRESSED = .ok 96 ∧
    EncodingSizeInBytes .NIST_P384 .UNKNOWN_FORMAT = .error .unsupportedFormat ∧
    EncodingSizeInBytes .NIST_P521 .UNCOMPRESSED = .ok 133 ∧
    EncodingSizeInBytes .NIST_P521 .COMPRESSED = .ok 67 ∧
    EncodingSizeInBytes .NIST_P521 .DO_NOT_USE_CRUNCHY_UNCOMPRESSED = .ok 132 ∧
    EncodingSizeInBytes .NIST_P521 .UNKNOWN_FORMAT = .error .unsupportedFormat := by
  refine ⟨rfl, rfl, rfl, rfl, rfl, rfl, rfl, rfl, rfl, rfl, rfl, rfl⟩

/-- C2 evaluation: `X25519KeyFromEcKey` on a CURVE25519 key whose `pub_x`
and `priv` are both empty (shorter than 32 bytes) returns a key instead of
failing: the length check demanded by the spec is absent from the code
(`std::copy_n` reads past the end of the source buffers). -/
theorem c2_short_key_not_rejected :
    X25519KeyFromEcKey
      { curve := .CURVE25519, pub_x := [], pub_y := [], priv := [] } =
      .ok { private_key := [], public_value := [] } := rfl

/-- C9: `X25519KeyFromEcKey` fails with `WrongCurve` whenever the curve is
not CURVE25519 (regardless of `pub_y`), and with `UnexpectedCoordinate`
when the curve is CURVE25519 but `pub_y` is non-empty. -/
theorem c9_key_adapter_checks (k : EcKey) :
    (k.curve ≠ .CURVE25519 → X25519KeyFromEcKey k = .error .wrongCurve) ∧
    (k.curve = .CURVE25519 → k.pub_y ≠ [] →
      X25519KeyFromEcKey k = .error .unexpectedCoordinate) := by
  constructor
  · intro h
    simp [X25519KeyFromEcKey, h]
  · intro hc hy
    simp [X25519KeyFromEcKey, hc, hy]

/-- C9 witness. -/
theorem c9_key_adapter_checks_witness :
    X25519KeyFromEcKey
      { curve := .NIST_P256, pub_x := [], pub_y := [1], priv := [] } =
      .error .wrongCurve ∧
    X25519KeyFromEcKey
      { curve := .CURVE25519, pub_x := [], pub_y := [1], priv := [] } =
      .error .unexpectedCoordinate :=
  ⟨(c9_key_adapter_checks _).1 (by decide),
   (c9_key_adapter_checks _).2 rfl (by decide)⟩

/-- C8: for a well-formed CURVE25519 `EcKey` (empty `pub_y`, 32-byte `pub_x`
and `priv`), converting to an `X25519Key` and back is the identity. -/
theorem c8_x25519_round_trip (k : EcKey) (hc : k.curve = .CURVE25519)
    (hy : k.pub_y = []) (hx : k.pub_x.length = 32) (hp : k.priv.length = 32) :
    ∃ x, X25519KeyFromEcKey k = .ok x ∧ EcKeyFromX25519Key x = k := by
  refine ⟨{ private_key := k.priv, public_value := k.pub_x }, ?_, ?_⟩
  · simp [X25519KeyFromEcKey, hc, hy, X25519KeyPrivKeySize, X25519KeyPubKeySize,
      List.take_of_length_le hp.le, List.take_of_length_le hx.le]
  · cases k
    simp_all [EcKeyFromX25519Key]

/-- C8 witness. -/
theorem c8_x25519_round_trip_witness :
    ∃ x, X25519KeyFromEcKey
        { curve := .CURVE25519, pub_x := List.replicate 32 7, pub_y := [],
          priv := List.replicate 32 9 } = .ok x ∧
      EcKeyFromX25519Key x =
        { curve := .CURVE25519, pub_x := List.replicate 32 7, pub_y := [],
          priv := List.replicate 32 9 } :=
  c8_x25519_round_trip _ rfl rfl (by simp) (by simp)

/-- C6: `EcPointEncode` checks the point against the resolved curve before
doing any format-specific work: whenever the point is not on the curve it
fails with `InvalidPoint`, for every format value. -/
theorem c6_encode_rejects_off_curve (curve : EllipticCurveType) (g : ECGroup)
    (format : EcPointFormat) (P : ECPoint)
    (hg : EcGroupFromCurveType curve = .ok g) (hP : onCurve g P = false) :
    EcPointEncode curve format P = .error .invalidPoint := by
  cases curve <;> simp [EcGroupFromCurveType] at hg <;>
    subst hg <;>
    simp [EcPointEncode, EcGroupFromCurveType, Except.bind, hP]

/-- C6 witness: `(0, 0)` is not on P-256 (its `b` coefficient is nonzero). -/
theorem c6_encode_rejects_off_curve_witness :
    EcPointEncode .NIST_P256 .UNCOMPRESSED ⟨0, 0⟩ = .error .invalidPoint :=
  c6_encode_rejects_off_curve .NIST_P256 groupP256 .UNCOMPRESSED ⟨0, 0⟩ rfl
    (by decide)

/-- C4: for every supported curve and every valid format, `EcPointDecode`
fails with `LengthMismatch` on any input whose length differs from the
format's encoding size. -/
theorem c4_decode_rejects_wrong_length (curve : EllipticCurveType)
    (g : ECGroup) (format : EcPointFormat) (sz : Nat) (bytes : List Nat)
    (hg : EcGroupFromCurveType curve = .ok g)
    (hf : format = .UNCOMPRESSED ∨ format = .COMPRESSED ∨
      format = .DO_NOT_USE_CRUNCHY_UNCOMPRESSED)
    (hsz : EncodingSizeInBytes curve format = .ok sz)
    (hlen : bytes.length ≠ sz) :
    EcPointDecode curve format bytes = .error .lengthMismatch := by
  cases curve <;> simp [EcGroupFromCurveType] at hg <;> subst hg <;>
    rcases hf with rfl | rfl | rfl <;>
    simp_all [EcPointDecode, SslGetEcPointFromEncoded, EncodingSizeInBytes,
      EcGroupFromCurveType, Except.bind, groupP256, groupP384, groupP521]

/-- C4 witness: a 64-byte input is rejected for (P-256, UNCOMPRESSED). -/
theorem c4_decode_rejects_wrong_length_witness :
    EcPointDecode .NIST_P256 .UNCOMPRESSED (List.replicate 64 0) =
      .error .lengthMismatch :=
  c4_decode_rejects_wrong_length .NIST_P256 groupP256 .UNCOMPRESSED 65
    (List.replicate 64 0) rfl (Or.inl rfl) rfl (by simp)

/-- C5: on inputs of the correct length, `EcPointDecode` fails with
`InvalidEncoding` if the leading tag byte is not `0x04` (UNCOMPRESSED) or
not `0x02`/`0x03` (COMPRESSED). -/
theorem c5_decode_rejects_bad_tag (curve : EllipticCurveType) (g : ECGroup)
    (sz₁ sz₂ : Nat) (bytes₁ bytes₂ : List Nat)
    (hg : EcGroupFromCurveType curve = .ok g)
    (hsz₁ : EncodingSizeInBytes curve .UNCOMPRESSED = .ok sz₁)
    (hlen₁ : bytes₁.length = sz₁) (htag₁ : bytes₁.head? ≠ some 4)
    (hsz₂ : EncodingSizeInBytes curve .COMPRESSED = .ok sz₂)
    (hlen₂ : bytes₂.length = sz₂) (htag₂ : bytes₂.head? ≠ some 2)
    (htag₂' : bytes₂.head? ≠ some 3) :
    EcPointDecode curve .UNCOMPRESSED bytes₁ = .error .invalidEncoding ∧
    EcPointDecode curve .COMPRESSED bytes₂ = .error .invalidEncoding := by
  cases curve <;> simp [EcGroupFromCurveType] at hg <;> subst hg <;>
    constructor <;>
    simp_all [EcPointDecode, SslGetEcPointFromEncoded, EncodingSizeInBytes,
      EcGroupFromCurveType, Except.bind, groupP256, groupP384, groupP521]

/-- C5 witness: correct lengths, bad tags, for P-256. -/
theorem c5_decode_rejects_bad_tag_witness :
    EcPointDecode .NIST_P256 .UNCOMPRESSED (5 :: List.replicate 64 0) =
      .error .invalidEncoding ∧
    EcPointDecode .NIST_P256 .COMPRESSED (5 :: List.replicate 32 0) =
      .error .invalidEncoding :=
  c5_decode_rejects_bad_tag .NIST_P256 groupP256 65 33
    (5 :: List.replicate 64 0) (5 :: List.replicate 32 0) rfl rfl (by simp)
    (by simp) rfl (by simp) (by simp) (by simp)

/-- C10 counterexample: with curve CURVE25519 and the invalid format value,
`EcPointDecode` fails with `UnsupportedFormat`, not `UnsupportedCurve`
(format dispatch happens before curve resolution in `EcPointDecode`). -/
theorem c10_counterexample :
    EcPointDecode .CURVE25519 .UNKNOWN_FORMAT [] ≠
      .error .unsupportedCurve := by
  simp [EcPointDecode]

/-- C10 (amended): for CURVE25519, `EcPointEncode` and `EncodingSizeInBytes`
fail with `UnsupportedCurve` for every format value, and `EcPointDecode`
fails with `UnsupportedCurve` for the three valid formats; for the invalid
format value `EcPointDecode` fails with `UnsupportedFormat` instead, since
its format dispatch precedes curve resolution. -/
theorem c10_curve25519_rejected :
    (∀ (format : EcPointFormat) (P : ECPoint),
      EcPointEncode .CURVE25519 format P = .error .unsupportedCurve) ∧
    (∀ format : EcPointFormat,
      EncodingSizeInBytes .CURVE25519 format = .error .unsupportedCurve) ∧
    (∀ bytes : List Nat,
      EcPointDecode .CURVE25519 .UNCOMPRESSED bytes =
        .error .unsupportedCurve) ∧
    (∀ bytes : List Nat,
      EcPointDecode .CURVE25519 .COMPRESSED bytes =
        .error .unsupportedCurve) ∧
    (∀ bytes : List Nat,
      EcPointDecode .CURVE25519 .DO_NOT_USE_CRUNCHY_UNCOMPRESSED bytes =
        .error .unsupportedCurve) ∧
    (∀ bytes : List Nat,
      EcPointDecode .CURVE25519 .UNKNOWN_FORMAT bytes =
        .error .unsupportedFormat) := by
  refine ⟨fun format P => rfl, fun format => rfl, fun bytes => rfl,
    fun bytes => rfl, fun bytes => rfl, fun bytes => rfl⟩

end TinkEc
